import Mathlib

/-!
Verification of the Flash-Sale-Service repository against its specification.

The Go source is shallowly embedded: each handler or service function becomes
a pure Lean function over an explicit state; Go `int` becomes `Int`, Go time
instants become `Nat` (seconds, or milliseconds where sub-second precision
matters), and fallible operations return `Option` or carry an explicit fault
flag.  Functions of the repository that live outside the provided source
(`internal/redis`, `internal/models`) are modelled from the specification and
say so in their doc comments.
-/

namespace FlashSale

/-! ## Rate limiter (src/ratelimit.go)

`RateLimiter.Allow` keeps, per key, a token count and a last-refill instant.
We embed the per-key state as `Option (Int × Nat)`: `none` when the key has
never been seen, otherwise `(tokens, lastRefillMs)`.  The current time is a
millisecond count `nowMs`.  Go computes
`tokensToAdd := int(now.Sub(lastRefill).Seconds()) * rl.rate`;
`int(...)` truncates the (non-negative) float seconds towards zero, which on
millisecond-precision instants is `(nowMs - lastMs) / 1000` in `Nat`
division. -/

/-- One `Allow(key)` call of `RateLimiter` (src/ratelimit.go, lines 26-49),
restricted to the single key's state.  Returns (granted?, tokens', lastRefill'). -/
def Allow (rate burst : Int) (nowMs : Nat) (st : Option (Int × Nat)) :
    Bool × Int × Nat :=
  match st with
  | none => (true, burst, nowMs)
  | some (tokens, lastMs) =>
    let tokensToAdd : Int := Int.ofNat ((nowMs - lastMs) / 1000) * rate
    let (tokens, lastMs) :=
      if tokensToAdd > 0 then (min (tokens + tokensToAdd) burst, nowMs)
      else (tokens, lastMs)
    if tokens > 0 then (true, tokens - 1, lastMs) else (false, tokens, lastMs)

/-- The token count after the refill step of `Allow` (before any decrement):
`min(tokens + tokensToAdd, burst)` when `tokensToAdd > 0`, else `tokens`. -/
def refilledTokens (rate burst : Int) (nowMs : Nat) (tokens : Int) (lastMs : Nat) : Int :=
  if Int.ofNat ((nowMs - lastMs) / 1000) * rate > 0 then
    min (tokens + Int.ofNat ((nowMs - lastMs) / 1000) * rate) burst
  else tokens

/-- `n` consecutive `Allow` calls on one key at a fixed instant, listing the
grant/deny outcomes in order. -/
def allowRun (rate burst : Int) (nowMs : Nat) : Nat → Option (Int × Nat) → List Bool
  | 0, _ => []
  | n + 1, st =>
    let r := Allow rate burst nowMs st
    r.1 :: allowRun rate burst nowMs n (some (r.2.1, r.2.2))

/-- The refill the specification prescribes: `tokens += elapsed_seconds × rate`,
clamped at `burst`, with sub-second credit retained.  Stated on millisecond
elapsed time, so `elapsed_seconds × rate = elapsedMs × rate / 1000`.  This
definition follows the spec's words (§9, "the spec requires a time-proportional
refill"), for comparison with the source's `Allow`. -/
def specRefilledTokens (rate burst tokens : Int) (elapsedMs : Nat) : Int :=
  min (tokens + Int.ofNat elapsedMs * rate / 1000) burst

/-! ## Health endpoint (src/health.go)

`HealthCheck` builds a JSON body with fields status/timestamp/database/redis,
downgrading fields to "ERROR" when the corresponding ping fails.  It never
calls `WriteHeader` or `http.Error`, so Go's `net/http` sends status 200 on
the first body write in every branch; the embedding records that status
explicitly.  The two pings are external collaborators and enter as booleans. -/

structure HealthBody where
  status : String
  timestamp : Int
  database : String
  redis : String
  deriving Repr, DecidableEq

/-- `HealthCheck` (src/health.go, lines 12-39): given the outcomes of
`db.Ping()` and `redisClient.Ping()` and the current Unix time, the HTTP status
code and JSON body written. -/
def HealthCheck (dbPingOk redisPingOk : Bool) (ts : Int) : Nat × HealthBody :=
  let h : HealthBody := { status := "OK", timestamp := ts, database := "OK", redis := "OK" }
  let h := if dbPingOk then h else { h with status := "ERROR", database := "ERROR" }
  let h := if redisPingOk then h else { h with status := "ERROR", redis := "ERROR" }
  (200, h)

/-! ## Sale scheduler (src/unnamed/part_001)

`Scheduler.createNewSale` computes `startTime := now.Truncate(time.Hour)` and
`endTime := startTime.Add(time.Hour)`.  Go's `Time.Truncate(time.Hour)` rounds
down to a multiple of one hour since the (hour-aligned) zero time, so on a
`Nat` count of seconds it is `now / 3600 * 3600`.  `models.ItemsPerSale` lives
in the missing `internal/models` package; the repository's architecture
document and the spec both fix it at 10000 (quota Q), and the second
`createNewSale` in the same file hardcodes 10000. -/

/-- Modelled from the spec: `models.ItemsPerSale` (package `internal/models` is
not under src/).  "Quota Q: the total number of items offered in one sale
(default 10,000)"; the sibling `createNewSale(db)` inserts the literal 10000. -/
def ItemsPerSale : Nat := 10000

inductive SaleStatus where
  | scheduled | active | completed | cancelled
  deriving Repr, DecidableEq

structure Sale where
  saleID : String
  startTime : Nat
  endTime : Nat
  totalItems : Nat
  itemsSold : Nat
  status : SaleStatus
  deriving Repr, DecidableEq

/-- `time.Truncate(time.Hour)` on a second count: floor to the hour. -/
def truncHour (now : Nat) : Nat := now / 3600 * 3600

/-- The sale record built by `Scheduler.createNewSale` (src/unnamed/part_001,
lines 163-176): window aligned to the hour containing `now`, `ItemsPerSale`
items.  The random `saleID` enters as a parameter. -/
def createNewSale (saleID : String) (now : Nat) : Sale :=
  let startTime := truncHour now
  { saleID := saleID
    startTime := startTime
    endTime := startTime + 3600
    totalItems := ItemsPerSale
    itemsSold := 0
    status := SaleStatus.active }

/-- `waitUntilNextHour` (src/unnamed/part_001): the duration until the next
hour boundary.  `Scheduler.Start` sleeps for this duration and only then
creates its hourly ticker, so no sale is created at that boundary itself. -/
def waitUntilNextHour (now : Nat) : Nat := (truncHour now + 3600) - now

/-- The instants at which `StartScheduler` (src/unnamed/part_001, the entry
point `main` wires) runs `createNewSale`: `time.NewTicker(1 * time.Hour)` is
created at process start and first fires one hour later, then hourly — at
process-start offsets, not at hour boundaries. -/
def startSchedulerFire (startTime : Nat) (k : Nat) : Nat :=
  startTime + (k + 1) * 3600

/-- The instants at which `Scheduler.Start` (src/unnamed/part_001) runs
`createNewSale` from its main loop: it sleeps `waitUntilNextHour`, creates the
hourly ticker at the first boundary, and that ticker first fires one hour
after its creation. -/
def schedulerStartFire (startTime : Nat) (k : Nat) : Nat :=
  (truncHour startTime + 3600) + (k + 1) * 3600

/-- `StartScheduler` creates a sale at instant `t`.  Its only creation
instants are the ticker fires. -/
def startSchedulerCreatesAt (startTime t : Nat) : Prop :=
  ∃ k, startSchedulerFire startTime k = t

/-- `Scheduler.Start` creates a sale at instant `t`: the initial sale at
startup (when no active sale exists), or a ticker fire of its main loop. -/
def schedulerStartCreatesAt (startTime t : Nat) : Prop :=
  t = startTime ∨ ∃ k, schedulerStartFire startTime k = t

/-! ## Purchase handler (src/purchase.go)

The coordinator (Redis) state is embedded as association lists: checkout
sessions keyed by code, integer counters keyed by counter name, and the
per-(sale,user) counters (which the handler never reads or writes) kept
alongside so their preservation can be stated.  The durable store is a list of
purchase rows.  `internal/redis.GetCheckoutSession` and
`internal/redis.DecrementInventory` are not under src/ — only their call
sites are — so they are modelled from the spec; connectivity failures of
those two calls (`Transient` in the spec's taxonomy, §7) are injected through
a `CoFault` parameter so the handler's error branches are reachable. -/

/-- The pair a checkout session resolves to.  The call site in src/purchase.go
destructures exactly two values, `userID, itemID, err :=
redis.GetCheckoutSession(...)`: no sale_id reaches the handler. -/
structure Session where
  userID : String
  itemID : String
  deriving Repr, DecidableEq

/-- Set `key` to `v` in an association list, in place if present. -/
def setEntry (l : List (String × Int)) (key : String) (v : Int) : List (String × Int) :=
  match l with
  | [] => [(key, v)]
  | (k, w) :: rest => if k = key then (key, v) :: rest else (k, w) :: setEntry rest key v

/-- Coordinator (Redis) state. -/
structure CoState where
  sessions : List (String × Session)
  counters : List (String × Int)
  userCounts : List (String × Int)
  deriving Repr, DecidableEq

/-- Modelled from the spec: `internal/redis.GetCheckoutSession` (package
`internal/redis` is not under src/).  §4.2: "Keyed session record with TTL:
set-if-absent, get, delete" — get returns the record stored under
`checkout:{code}`, or an error when the key is missing or expired.  Expired
keys are absent from `sessions`. -/
def GetCheckoutSession (st : CoState) (code : String) : Option Session :=
  st.sessions.lookup code

/-- Modelled from the spec: `internal/redis.DecrementInventory` (package
`internal/redis` is not under src/).  §4.2: "Atomic counter with
Decrement-if-positive semantics returning the post-decrement value or a
Depleted signal".  It decrements the inventory counter named by its argument —
the handler passes `itemID`, the only identifier it has — returning whether a
unit was consumed, together with the new state.  An absent counter reads 0. -/
def DecrementInventory (st : CoState) (key : String) : Bool × CoState :=
  let v := (st.counters.lookup key).getD 0
  if v > 0 then (true, { st with counters := setEntry st.counters key (v - 1) })
  else (false, st)

/-- A durable purchase row as `recordPurchase` receives it. -/
structure PurchaseRow where
  userID : String
  itemID : String
  deriving Repr, DecidableEq

/-- `recordPurchase` (src/purchase.go, lines 54-58): the body is a placeholder
that returns the literal id `"purchase_a1b2c3d4e5f6g7h8"` and a nil error; it
performs no insert, so the durable state passes through unchanged. -/
def recordPurchase (db : List PurchaseRow) (userID itemID : String) :
    String × List PurchaseRow :=
  ("purchase_a1b2c3d4e5f6g7h8", db)

/-- Which of the two coordinator round-trips (if any) fails with a
connectivity error on this request. -/
inductive CoFault where
  | ok | sessionFail | decrFail
  deriving Repr, DecidableEq

/-- The HTTP response the handler writes: status code, success flag, and the
purchase_id field of the JSON body when present. -/
structure Response where
  status : Nat
  success : Bool
  purchaseID : Option String
  deriving Repr, DecidableEq

def errResponse (status : Nat) : Response :=
  { status := status, success := false, purchaseID := none }

/-- `PurchaseHandler` (src/purchase.go, lines 10-52).  `code` is the value of
the `code` query parameter (`""` when missing, as `URL.Query().Get` returns).
Mirrors the source's control flow: missing code → 400; any
`GetCheckoutSession` error (absent key or connectivity) → 400; a
`DecrementInventory` connectivity error → 500; `!decremented` → 409; otherwise
`recordPurchase` and a 200 JSON body.  (`recordPurchase` never returns an
error, so the source's 500 "Error recording purchase" branch is dead.) -/
def PurchaseHandler (fault : CoFault) (code : String) (st : CoState)
    (db : List PurchaseRow) : Response × CoState × List PurchaseRow :=
  if code = "" then (errResponse 400, st, db)
  else if fault = CoFault.sessionFail then (errResponse 400, st, db)
  else
    match GetCheckoutSession st code with
    | none => (errResponse 400, st, db)
    | some sess =>
      if fault = CoFault.decrFail then (errResponse 500, st, db)
      else
        let r := DecrementInventory st sess.itemID
        if r.1 then
          let p := recordPurchase db sess.userID sess.itemID
          ({ status := 200, success := true, purchaseID := some p.1 }, r.2, p.2)
        else (errResponse 409, r.2, db)

/-- The status code a `Purchase` request produces. -/
def purchaseStatus (fault : CoFault) (code : String) (st : CoState)
    (db : List PurchaseRow) : Nat :=
  (PurchaseHandler fault code st db).1.status

/-! ## Concrete coordinator states used to exercise the handler -/

/-- One pending session, two units of item inventory, and the per-(sale,user)
counter already at the cap C = 10. -/
def notCompoundState : CoState :=
  { sessions := [("K", { userID := "u1", itemID := "I1" })]
    counters := [("I1", 2)]
    userCounts := [("sale:s1:user:u1:count", 10)] }

/-- A sale s1 with quota Q = 1 (its sale-level counter holds 1) and two of its
items I1, I2, each with a pending session and a unit on its item-keyed
counter. -/
def oversellState : CoState :=
  { sessions := [("K1", { userID := "u1", itemID := "I1" }),
                 ("K2", { userID := "u2", itemID := "I2" })]
    counters := [("sale:s1:inventory", 1), ("I1", 1), ("I2", 1)]
    userCounts := [] }

def oversellStep1 : Response × CoState × List PurchaseRow :=
  PurchaseHandler CoFault.ok "K1" oversellState []

def oversellStep2 : Response × CoState × List PurchaseRow :=
  PurchaseHandler CoFault.ok "K2" oversellStep1.2.1 oversellStep1.2.2

/-- One pending session for code K and two units of inventory for its item. -/
def singleUseState : CoState :=
  { sessions := [("K", { userID := "u1", itemID := "I1" })]
    counters := [("I1", 2)]
    userCounts := [] }

def singleUseStep1 : Response × CoState × List PurchaseRow :=
  PurchaseHandler CoFault.ok "K" singleUseState []

def singleUseStep2 : Response × CoState × List PurchaseRow :=
  PurchaseHandler CoFault.ok "K" singleUseStep1.2.1 singleUseStep1.2.2

/-- A session for user u1 whose per-(sale,user) counter already equals the cap
C = 10, with inventory available. -/
def capState : CoState :=
  { sessions := [("K", { userID := "u1", itemID := "I1" })]
    counters := [("I1", 5)]
    userCounts := [("sale:s1:user:u1:count", 10)] }

/-- A valid pending session with inventory available, used with a coordinator
connectivity fault on the decrement round-trip. -/
def transientState : CoState :=
  { sessions := [("K", { userID := "u1", itemID := "I1" })]
    counters := [("I1", 1)]
    userCounts := [] }

/-! ## Theorems -/

/-- Claim C7 counterexample: for a process started at t = 1800 (half past the
hour) no sale is created at the first window boundary t = 3600.
`StartScheduler` — the entry point `main` wires — first runs `createNewSale`
only at t = 5400, mid-window; `Scheduler.Start` creates its startup sale at
t = 1800 (for the window starting at 0) and its first scheduled sale only at
t = 7200 (for the window starting at 7200), so the window [3600, 7200) is
skipped entirely. -/
theorem scheduler_misses_first_boundary :
    ¬ startSchedulerCreatesAt 1800 3600 ∧
    ¬ schedulerStartCreatesAt 1800 3600 ∧
    startSchedulerFire 1800 0 = 5400 ∧
    (createNewSale "s" 1800).startTime = 0 ∧
    (createNewSale "s" (schedulerStartFire 1800 0)).startTime = 7200 := by
  refine ⟨?_, ?_, rfl, rfl, rfl⟩
  · rintro ⟨k, hk⟩
    simp only [startSchedulerFire] at hk
    omega
  · rintro (h | ⟨k, hk⟩)
    · omega
    · simp only [schedulerStartFire, truncHour] at hk
      omega

/-- Claim C7 amended: every sale the scheduler creates is aligned to the
window boundary — `window_start = floor(now, W)` (characterised as the
hour-aligned instant with `start ≤ now < start + W`),
`window_end = window_start + W`, `total_items = Q` — and `Scheduler.Start`'s
startup wait expires exactly at the window boundary; but sales are not created
at each window boundary: every `createNewSale` fire of `StartScheduler` keeps
the process-start phase within the hour, and every scheduled fire of
`Scheduler.Start` lies strictly after the first boundary following startup,
which therefore triggers no creation. -/
theorem createNewSale_aligned_not_at_boundary (now : Nat) (sid : String) (k : Nat) :
    (createNewSale sid now).startTime ≤ now ∧
    now < (createNewSale sid now).endTime ∧
    (createNewSale sid now).startTime % 3600 = 0 ∧
    (createNewSale sid now).endTime = (createNewSale sid now).startTime + 3600 ∧
    (createNewSale sid now).totalItems = ItemsPerSale ∧
    now + waitUntilNextHour now = (createNewSale sid now).endTime ∧
    0 < waitUntilNextHour now ∧ waitUntilNextHour now ≤ 3600 ∧
    startSchedulerFire now k % 3600 = now % 3600 ∧
    truncHour now + 3600 < schedulerStartFire now k := by
  simp [createNewSale, waitUntilNextHour, truncHour, ItemsPerSale,
    startSchedulerFire, schedulerStartFire]
  omega

/-- Claim C9: the health endpoint always answers HTTP 200 — the handler never
calls `WriteHeader` or `http.Error`, so the first body write sends 200 — and
ping failures surface only in the JSON body fields. -/
theorem healthCheck_always_200 (d r : Bool) (ts : Int) :
    (HealthCheck d r ts).1 = 200 ∧
    (HealthCheck d r ts).2.database = (if d then "OK" else "ERROR") ∧
    (HealthCheck d r ts).2.redis = (if r then "OK" else "ERROR") ∧
    (HealthCheck d r ts).2.status = (if d && r then "OK" else "ERROR") ∧
    (HealthCheck d r ts).2.timestamp = ts := by
  cases d <;> cases r <;> simp [HealthCheck]

/-- Claim C5 (code bug): `recordPurchase` is a placeholder — for every durable
state and every (user, item) it returns the hard-coded id
`"purchase_a1b2c3d4e5f6g7h8"` and leaves the store untouched, so no purchase
row is inserted, the id is not fresh, and two successful purchases share the
same id; the claimed unique generated id and durable insert with a
(sale_id, item_id) uniqueness constraint do not exist in the code. -/
theorem recordPurchase_stub (db : List PurchaseRow) (u i : String) :
    recordPurchase db u i = ("purchase_a1b2c3d4e5f6g7h8", db) := rfl

/-- Claim C8 (code bug): `Allow` refills by whole elapsed seconds, so a 500 ms
interval at rate 100 adds zero tokens and the request is denied, while the
spec's time-proportional refill would credit 50 tokens and grant it; likewise
1999 ms adds only one second's worth (100) instead of the proportional 199. -/
theorem allow_loses_subsecond_credit :
    Allow 100 200 500 (some (0, 0)) = (false, 0, 0) ∧
    specRefilledTokens 100 200 0 500 = 50 ∧
    Allow 100 200 1999 (some (0, 0)) = (true, 99, 1999) ∧
    specRefilledTokens 100 200 0 1999 = 199 := by
  refine ⟨?_, by decide, ?_, by decide⟩ <;> decide

/-- Claim C1 (code bug): the handler does not perform the claimed indivisible
four-part step.  On a successful redemption from `notCompoundState` it returns
200, yet the session record survives (no session deletion exists in the code)
and the per-(sale,user) counters are never read or written (no user-cap check
exists), so the redemption is observably not the compound atomic operation the
claim describes. -/
theorem purchase_redemption_not_compound :
    (PurchaseHandler CoFault.ok "K" notCompoundState []).1.status = 200 ∧
    (PurchaseHandler CoFault.ok "K" notCompoundState []).2.1.sessions =
      notCompoundState.sessions ∧
    (PurchaseHandler CoFault.ok "K" notCompoundState []).2.1.userCounts =
      notCompoundState.userCounts := by
  refine ⟨rfl, rfl, rfl⟩

/-- Claim C2 (code bug): the handler decrements a counter keyed by the
session's item_id — it never even holds a sale_id — so the sale-level counter
`sale:s1:inventory`, initialised to the quota Q = 1, is untouched while two
purchases of sale s1's items both succeed: 2 > Q successful redemptions for
one sale, with the sale counter still at 1. -/
theorem purchase_sale_counter_untouched :
    oversellStep1.1.status = 200 ∧ oversellStep1.1.success = true ∧
    oversellStep2.1.status = 200 ∧ oversellStep2.1.success = true ∧
    oversellStep2.2.1.counters.lookup "sale:s1:inventory" = some 1 := by
  refine ⟨rfl, rfl, rfl, rfl, by decide⟩

/-- Claim C3 (code bug): checkout codes are not single-use.  The handler never
deletes the session key, so a second `Purchase` with the same code K succeeds
again instead of returning `InvalidOrExpiredCode` (HTTP 400). -/
theorem purchase_code_reusable :
    singleUseStep1.1.status = 200 ∧ singleUseStep1.1.success = true ∧
    singleUseStep2.1.status = 200 ∧ singleUseStep2.1.success = true := by
  refine ⟨rfl, rfl, rfl, rfl⟩

/-- Claim C4 (code bug): no per-user cap check exists.  With the
per-(sale,user) counter already at C = 10, the purchase still returns 200
instead of `UserLimitExceeded`, and the counters are neither consulted nor
incremented. -/
theorem purchase_ignores_user_cap :
    (PurchaseHandler CoFault.ok "K" capState []).1.status = 200 ∧
    (PurchaseHandler CoFault.ok "K" capState []).1.success = true ∧
    (PurchaseHandler CoFault.ok "K" capState []).2.1.userCounts =
      capState.userCounts := by
  refine ⟨rfl, rfl, rfl⟩

/-- Claim C6 counterexample: a coordinator connectivity failure on the
inventory decrement — `Transient` in the spec's taxonomy — is answered with
HTTP 500, not the claimed 503. -/
theorem purchase_transient_maps_to_500 :
    purchaseStatus CoFault.decrFail "K" transientState [] = 500 ∧
    purchaseStatus CoFault.decrFail "K" transientState [] ≠ 503 := by
  refine ⟨rfl, by decide⟩

/-- Claim C6 amended: the handler's actual outcome-to-status mapping.  Success
is 200 with the (hard-coded) purchase_id; a missing code, a session-lookup
failure of any kind (absent/expired code or coordinator connectivity), is 400;
a depleted counter (`SoldOut`) is 409; a coordinator failure on the decrement
(`Transient`) is 500, not 503; and the handler never emits 403
(`UserLimitExceeded`) or any other status. -/
theorem purchase_status_mapping (fault : CoFault) (code : String) (st : CoState)
    (db : List PurchaseRow) :
    (purchaseStatus fault code st db = 200 ∨ purchaseStatus fault code st db = 400 ∨
     purchaseStatus fault code st db = 409 ∨ purchaseStatus fault code st db = 500) ∧
    ((PurchaseHandler fault code st db).1.success = true ↔
      purchaseStatus fault code st db = 200) ∧
    (code = "" → purchaseStatus fault code st db = 400) ∧
    (code ≠ "" → GetCheckoutSession st code = none →
      purchaseStatus fault code st db = 400) ∧
    (code ≠ "" → fault = CoFault.sessionFail → purchaseStatus fault code st db = 400) ∧
    (code ≠ "" → fault = CoFault.decrFail → (GetCheckoutSession st code).isSome →
      purchaseStatus fault code st db = 500) ∧
    (∀ sess, code ≠ "" → fault = CoFault.ok → GetCheckoutSession st code = some sess →
      ((DecrementInventory st sess.itemID).1 = false →
        purchaseStatus fault code st db = 409) ∧
      ((DecrementInventory st sess.itemID).1 = true →
        purchaseStatus fault code st db = 200 ∧
        (PurchaseHandler fault code st db).1.purchaseID =
          some "purchase_a1b2c3d4e5f6g7h8")) := by
  by_cases hc : code = "" <;> cases fault <;>
    cases hs : GetCheckoutSession st code <;>
      simp_all [purchaseStatus, PurchaseHandler, errResponse, recordPurchase]
  all_goals
    rename_i sess
    by_cases hd : (DecrementInventory st sess.itemID).1 <;>
      simp_all [purchaseStatus, PurchaseHandler, errResponse, recordPurchase]

theorem purchase_status_mapping_witness :
    purchaseStatus CoFault.ok "" { sessions := [], counters := [], userCounts := [] }
      [] = 400 :=
  (purchase_status_mapping CoFault.ok ""
    { sessions := [], counters := [], userCounts := [] } []).2.2.1 rfl

/-- With no time elapsed since the last refill, `Allow` adds no tokens: it
grants and decrements when tokens remain, else denies. -/
theorem allow_same_instant (rate burst : Int) (now : Nat) (t : Int) :
    Allow rate burst now (some (t, now)) =
      if t > 0 then (true, t - 1, now) else (false, t, now) := by
  simp [Allow]

/-- Unfolding one step of `allowRun`. -/
theorem allowRun_succ (rate burst : Int) (now : Nat) (n : Nat)
    (st : Option (Int × Nat)) :
    allowRun rate burst now (n + 1) st =
      (Allow rate burst now st).1 ::
        allowRun rate burst now n
          (some ((Allow rate burst now st).2.1, (Allow rate burst now st).2.2)) := rfl

/-- From `k` tokens at the current instant, `Allow` grants exactly `k` more
requests and then denies. -/
theorem allowRun_countdown (rate burst : Int) (now : Nat) (k : Nat) :
    allowRun rate burst now (k + 1) (some (((k : Nat) : Int), now)) =
      List.replicate k true ++ [false] := by
  induction k with
  | zero =>
    rw [allowRun_succ, allow_same_instant]
    norm_num [allowRun]
  | succ k ih =>
    rw [allowRun_succ]
    have h : Allow rate burst now (some (((k + 1 : Nat) : Int), now)) =
        (true, ((k : Nat) : Int), now) := by
      rw [allow_same_instant, if_pos (by exact_mod_cast Nat.succ_pos k)]
      have hc : ((k + 1 : Nat) : Int) - 1 = ((k : Nat) : Int) := by push_cast; ring
      rw [hc]
    rw [h]
    show true :: allowRun rate burst now (k + 1) (some (((k : Nat) : Int), now)) = _
    rw [ih]
    simp [List.replicate_succ]

/-- `Allow` on a seen key, phrased through the post-refill token count. -/
theorem allow_some_eq (rate burst : Int) (nowMs lastMs : Nat) (t : Int) :
    Allow rate burst nowMs (some (t, lastMs)) =
      if refilledTokens rate burst nowMs t lastMs > 0 then
        (true, refilledTokens rate burst nowMs t lastMs - 1,
          if Int.ofNat ((nowMs - lastMs) / 1000) * rate > 0 then nowMs else lastMs)
      else
        (false, refilledTokens rate burst nowMs t lastMs,
          if Int.ofNat ((nowMs - lastMs) / 1000) * rate > 0 then nowMs else lastMs) := by
  by_cases h : Int.ofNat ((nowMs - lastMs) / 1000) * rate > 0
  · simp only [Allow, refilledTokens, if_pos h]
  · simp only [Allow, refilledTokens, if_neg h]

/-- The post-refill token count stays within `[0, burst]` when the stored
count did. -/
theorem refilledTokens_bounds (rate burst : Int) (nowMs lastMs : Nat) (t : Int)
    (hb : 0 ≤ burst) (h0 : 0 ≤ t) (h1 : t ≤ burst) :
    0 ≤ refilledTokens rate burst nowMs t lastMs ∧
    refilledTokens rate burst nowMs t lastMs ≤ burst := by
  unfold refilledTokens
  split
  · rename_i h
    exact ⟨le_min (by linarith) hb, min_le_right _ _⟩
  · exact ⟨h0, h1⟩

/-- Bounds and the exact decrement for `Allow` on an already-seen key. -/
theorem allow_seen_props (rate burst : Int) (nowMs lastMs : Nat) (t : Int)
    (hb : 0 ≤ burst) (h0 : 0 ≤ t) (h1 : t ≤ burst) :
    0 ≤ (Allow rate burst nowMs (some (t, lastMs))).2.1 ∧
    (Allow rate burst nowMs (some (t, lastMs))).2.1 ≤ burst ∧
    ((Allow rate burst nowMs (some (t, lastMs))).1 = true →
      (Allow rate burst nowMs (some (t, lastMs))).2.1 =
        refilledTokens rate burst nowMs t lastMs - 1) := by
  obtain ⟨hL, hU⟩ := refilledTokens_bounds rate burst nowMs lastMs t hb h0 h1
  rw [allow_some_eq]
  by_cases hc : refilledTokens rate burst nowMs t lastMs > 0
  · rw [if_pos hc]
    refine ⟨?_, ?_, fun _ => rfl⟩
    · show 0 ≤ refilledTokens rate burst nowMs t lastMs - 1
      omega
    · show refilledTokens rate burst nowMs t lastMs - 1 ≤ burst
      omega
  · rw [if_neg hc]
    exact ⟨hL, hU, fun hcontra => by simp at hcontra⟩

/-- A fresh key at a fixed instant: `k + 1` grants, then a denial, when the
burst is `k`. -/
theorem allowRun_fresh (rate : Int) (nowMs : Nat) (k : Nat) :
    allowRun rate (k : Int) nowMs (k + 2) none =
      true :: (List.replicate k true ++ [false]) := by
  rw [show k + 2 = (k + 1) + 1 from rfl, allowRun_succ]
  show true :: allowRun rate (k : Int) nowMs (k + 1) (some (((k : Nat) : Int), nowMs)) = _
  rw [allowRun_countdown]

/-- Claim C10: the first `Allow` call on an unseen key stores `burst` tokens
and grants without decrementing, so from a fresh key `burst + 1` consecutive
calls (at one instant, before any refill) are granted and the next denied; on
a seen key whose count lies in `[0, burst]`, the count after `Allow` stays in
`[0, burst]`, and every granted call yields exactly the post-refill count
minus one. -/
theorem allow_first_call_and_bounds (rate burst : Int) (nowMs lastMs : Nat) (t : Int)
    (hb : 0 ≤ burst) (h0 : 0 ≤ t) (h1 : t ≤ burst) :
    Allow rate burst nowMs none = (true, burst, nowMs) ∧
    allowRun rate burst nowMs (burst.toNat + 2) none =
      true :: (List.replicate burst.toNat true ++ [false]) ∧
    0 ≤ (Allow rate burst nowMs (some (t, lastMs))).2.1 ∧
    (Allow rate burst nowMs (some (t, lastMs))).2.1 ≤ burst ∧
    ((Allow rate burst nowMs (some (t, lastMs))).1 = true →
      (Allow rate burst nowMs (some (t, lastMs))).2.1 =
        refilledTokens rate burst nowMs t lastMs - 1) := by
  obtain ⟨hL, hU, hD⟩ := allow_seen_props rate burst nowMs lastMs t hb h0 h1
  obtain ⟨k, hk⟩ : ∃ n : Nat, burst = (n : Int) := ⟨burst.toNat, (Int.toNat_of_nonneg hb).symm⟩
  subst hk
  refine ⟨rfl, ?_, hL, hU, hD⟩
  have htn : ((k : Int)).toNat = k := by simp
  rw [htn, allowRun_fresh]

theorem allow_first_call_and_bounds_witness :
    Allow 100 200 5000 none = (true, 200, 5000) ∧
    allowRun 100 200 5000 ((200 : Int).toNat + 2) none =
      true :: (List.replicate (200 : Int).toNat true ++ [false]) ∧
    0 ≤ (Allow 100 200 5000 (some (50, 0))).2.1 ∧
    (Allow 100 200 5000 (some (50, 0))).2.1 ≤ 200 ∧
    ((Allow 100 200 5000 (some (50, 0))).1 = true →
      (Allow 100 200 5000 (some (50, 0))).2.1 =
        refilledTokens 100 200 5000 50 0 - 1) :=
  allow_first_call_and_bounds 100 200 5000 0 50 (by decide) (by decide) (by decide)

end FlashSale
